import Mathlib

/-!
Verification of the building-risk assessment client
(`azure_openai_service.py` of albertaga27/image-assets-analyzer).

The Python module is embedded shallowly:

* Python strings are Lean `String`s; `str.find`, `str.rfind` and slice
  expressions `s[a:b]` (with Python's negative-index and clamping rules)
  are embedded as `pyFind`, `pyRfind` and `pySlice` below.
* JSON values are the inductive type `Json`; the external library call
  `json.loads` is an uninterpreted parameter `loads : String → Option Json`
  (`none` embeds a raised `json.JSONDecodeError`), since the `json` module
  is Python-stdlib code outside this repository.
* The external Azure OpenAI transport
  (`self.client.chat.completions.create`) is an uninterpreted parameter
  `send : ChatRequest → ApiResult`; `ApiResult.exn` embeds a raised
  transport exception, `ApiResult.ok` a returned response object whose
  optional `error` attribute and `choices[i].message.content` fields are
  carried explicitly.
* A raised Python exception escaping a method is embedded as
  `Except.error` carrying the exception's message string (`str(error)`).
-/

/-- The character `{` (written numerically throughout this file). -/
def lbrace : Char := Char.ofNat 123

/-- The character `}` (written numerically throughout this file). -/
def rbrace : Char := Char.ofNat 125

/-- Index of the first element satisfying `p`, if any (helper for the
embedding of Python `str.find` / `str.rfind`). -/
def findIdxOpt (p : Char → Bool) : List Char → Option Nat
  | [] => none
  | x :: xs => if p x then some 0 else (findIdxOpt p xs).map (· + 1)

/-- Python `s.find(c)`: index of the first occurrence of `c`, `-1` if absent. -/
def pyFind (s : String) (c : Char) : Int :=
  match findIdxOpt (fun x => x == c) s.data with
  | some i => (i : Int)
  | none => -1

/-- Python `s.rfind(c)`: index of the last occurrence of `c`, `-1` if absent. -/
def pyRfind (s : String) (c : Char) : Int :=
  match findIdxOpt (fun x => x == c) s.data.reverse with
  | some i => (s.data.length : Int) - 1 - (i : Int)
  | none => -1

/-- Normalization of one Python slice bound against length `L`: a negative
index counts from the end, then the result is clamped into `[0, L]`. -/
def pyClamp (i : Int) (L : Nat) : Nat :=
  (max 0 (min (if i < 0 then i + L else i) (L : Int))).toNat

/-- Python slice `l[a:b]` on a list of characters. -/
def pySliceList (l : List Char) (a b : Int) : List Char :=
  (l.take (pyClamp b l.length)).drop (pyClamp a l.length)

/-- Python slice `s[a:b]` on a string. -/
def pySlice (s : String) (a b : Int) : String :=
  String.mk (pySliceList s.data a b)

/-- Python `needle in hay` substring test. -/
def pyIn (needle hay : String) : Bool :=
  decide (needle.data <:+: hay.data)

/-- Python truthiness of an optional string: `None` and `''` are falsy. -/
def pyTruthyStr : Option String → Bool
  | none => false
  | some s => s ≠ ""

/-- JSON values, the result type of `json.loads`. -/
inductive Json where
  | null
  | bool (b : Bool)
  | num (n : Int)
  | str (s : String)
  | arr (elems : List Json)
  | obj (fields : List (String × Json))

/-- Look up a key in a JSON object (first binding wins), `none` otherwise. -/
def Json.getKey : Json → String → Option Json
  | .obj fields, k => (fields.find? (fun kv => kv.1 == k)).map (fun kv => kv.2)
  | _, _ => none

/-- The key list of a JSON object (empty for non-objects). -/
def Json.keys : Json → List String
  | .obj fields => fields.map (fun kv => kv.1)
  | _ => []

/-- One element of the `image_data` list passed to
`analyze_building_risks`: a dict `\x7bbase64, type, name, size?\x7d`; only the
`base64` and `type` entries are read by the service. -/
structure ImageData where
  base64 : String
  type : String

/-- One entry of the user message's content list: either the text block
`\x7b"type": "text", "text": t\x7d` or an image block
`\x7b"type": "image_url", "image_url": \x7b"url": u, "detail": d\x7d\x7d`. -/
inductive ContentBlock where
  | text (t : String)
  | imageUrl (url : String) (detail : String)

/-- A chat message's `content`: a plain string (system messages, and both
messages of `health_check`) or a list of content blocks (the user message
of `analyze_building_risks`). -/
inductive MessageContent where
  | text (s : String)
  | parts (blocks : List ContentBlock)

/-- One element of the `messages` list. -/
structure ChatMessage where
  role : String
  content : MessageContent

/-- The keyword arguments of `self.client.chat.completions.create`. -/
structure ChatRequest where
  messages : List ChatMessage
  max_tokens : Nat
  temperature : Rat
  model : String

/-- A response object returned by the transport: the optional `error`
attribute (`none` = attribute absent, embedding `hasattr(response,
'error')` being false) and, per choice, `choices[i].message.content`
(`none` = Python `None`). -/
structure ApiResponse where
  errorField : Option String
  choices : List (Option String)

/-- Outcome of a transport call: a raised exception (with its `str`), or a
response object. -/
inductive ApiResult where
  | exn (msg : String)
  | ok (r : ApiResponse)

/-- The `image_data` argument of `analyze_building_risks`, which the code
accepts either as a list or as a single (non-list) image dict. -/
inductive AnalyzeInput where
  | single (img : ImageData)
  | list (imgs : List ImageData)

/-- Line 44 of the source: `images = image_data if isinstance(image_data,
list) else [image_data]`. -/
def normalizeInput : AnalyzeInput → List ImageData
  | .single img => [img]
  | .list imgs => imgs

/-- The three environment values read in `__init__` (`os.getenv` returns
`None` for an unset variable). -/
structure Config where
  endpoint : Option String
  api_key : Option String
  deployment : Option String

/-- The constructed service: the three connection values plus the fixed
API version string. -/
structure AzureOpenAIService where
  endpoint : String
  api_key : String
  deployment : String
  api_version : String

/-- `AzureOpenAIService.__init__` (lines 14-28): raises `ValueError` iff
`not all([endpoint, api_key, deployment])`, i.e. iff any of the three
values is `None` or empty. -/
def initService (cfg : Config) : Except String AzureOpenAIService :=
  if pyTruthyStr cfg.endpoint && pyTruthyStr cfg.api_key && pyTruthyStr cfg.deployment then
    .ok { endpoint := cfg.endpoint.getD "", api_key := cfg.api_key.getD "",
          deployment := cfg.deployment.getD "", api_version := "2024-04-01-preview" }
  else
    .error "Missing Azure OpenAI configuration. Please check your .env file."

/-- `AzureOpenAIService._get_system_prompt` (lines 97-181), the f-string
transcribed verbatim (braces and quotes appear as escapes). -/
def get_system_prompt (image_count : Nat) : String :=
  "You are an expert insurance underwriter specializing in building risk assessment. \n" ++
  "You are analyzing " ++ toString image_count ++ " image" ++
  (if image_count > 1 then "s" else "") ++
  " of the same building from different angles/perspectives to provide a comprehensive risk assessment.\n\n" ++
  (if image_count > 1 then
    "Consider all images together to form a complete picture of the building and its risks. Look for consistent patterns across images and note any contradictions or additional context provided by multiple viewpoints."
   else
    "Analyze the provided building image and identify potential risks.") ++
  "\n\nFocus on these key risk categories:\n\n" ++
  "**Fire & Life Safety Risks:**\n- Emergency exits (number, location, width, accessibility)\n- Exit routes and egress paths\n- Fire suppression systems (sprinklers, extinguishers)\n- Fire-resistant materials and construction\n- Smoke detection systems\n\n" ++
  "**Structural & Construction Risks:**\n- Building age and condition indicators\n- Construction materials (wood, steel, concrete)\n- Roof condition and materials\n- Foundation and structural integrity\n- Seismic vulnerabilities\n\n" ++
  "**Security Risks:**\n- Access control and entry points\n- Lighting adequacy\n- Perimeter security\n- Surveillance coverage\n\n" ++
  "**Water Damage & Flood Risks:**\n- Proximity to water sources\n- Drainage systems\n- Below-grade areas\n- Plumbing condition\n\n" ++
  "**Occupancy & Usage Risks:**\n- Occupancy load vs exit capacity\n- Hazardous activities or storage\n- Mixed-use considerations\n- Accessibility compliance\n\n" ++
  "**Environmental & Location Risks:**\n- Surrounding hazards\n- Natural disaster exposure\n- Utility infrastructure proximity\n\n" ++
  "Provide your analysis in the following JSON format:\n\x7b\n" ++
  "  \"overall_risk_level\": \"LOW|MEDIUM|HIGH\",\n" ++
  "  \"risk_score\": 1-10,\n" ++
  "  \"images_analyzed\": " ++ toString image_count ++ ",\n" ++
  "  \"key_findings\": [\"finding1\", \"finding2\", \"finding3\"],\n" ++
  "  \"detailed_assessment\": \x7b\n" ++
  "    \"fire_safety\": \x7b\n      \"risk_level\": \"LOW|MEDIUM|HIGH\",\n      \"observations\": [\"observation1\", \"observation2\"],\n      \"concerns\": [\"concern1\", \"concern2\"]\n    \x7d,\n" ++
  "    \"structural\": \x7b\n      \"risk_level\": \"LOW|MEDIUM|HIGH\",\n      \"observations\": [\"observation1\", \"observation2\"],\n      \"concerns\": [\"concern1\", \"concern2\"]\n    \x7d,\n" ++
  "    \"security\": \x7b\n      \"risk_level\": \"LOW|MEDIUM|HIGH\",\n      \"observations\": [\"observation1\", \"observation2\"],\n      \"concerns\": [\"concern1\", \"concern2\"]\n    \x7d,\n" ++
  "    \"water_damage\": \x7b\n      \"risk_level\": \"LOW|MEDIUM|HIGH\",\n      \"observations\": [\"observation1\", \"observation2\"],\n      \"concerns\": [\"concern1\", \"concern2\"]\n    \x7d,\n" ++
  "    \"environmental\": \x7b\n      \"risk_level\": \"LOW|MEDIUM|HIGH\",\n      \"observations\": [\"observation1\", \"observation2\"],\n      \"concerns\": [\"concern1\", \"concern2\"]\n    \x7d\n" ++
  "  \x7d,\n" ++
  "  \"recommendations\": [\"recommendation1\", \"recommendation2\", \"recommendation3\"],\n" ++
  "  \"additional_information_needed\": [\"info1\", \"info2\"],\n" ++
  "  \"image_analysis_summary\": \"" ++
  (if image_count > 1 then
    "Summary of what was observed across all images and how they complement each other"
   else
    "Summary of the single image analysis") ++
  "\"\n\x7d\n\n" ++
  "Be thorough but realistic in your assessment. Only identify risks that are clearly visible or reasonably inferred from the images. " ++
  (if image_count > 1 then
    "When analyzing multiple images, provide insights that benefit from having multiple perspectives of the same building."
   else "")

/-- `AzureOpenAIService._get_user_prompt` (lines 183-188). -/
def get_user_prompt (image_count : Nat) : String :=
  if image_count > 1 then
    "Please analyze these " ++ toString image_count ++ " building images for comprehensive insurance underwriting risk assessment. These images show different angles and aspects of the same building. Provide a thorough evaluation considering all visible risk factors across all images."
  else
    "Please analyze this building image for insurance underwriting risk assessment. Provide a comprehensive evaluation of all visible risk factors."

/-- `AzureOpenAIService._create_fallback_response` (lines 190-208). -/
def create_fallback_response (content : String) (image_count : Nat) : Json :=
  Json.obj [
    ("overall_risk_level", .str "MEDIUM"),
    ("risk_score", .num 5),
    ("images_analyzed", .num (image_count : Int)),
    ("key_findings", .arr [.str "Analysis completed - see detailed response"]),
    ("raw_response", .str content),
    ("detailed_assessment", .obj [
      ("fire_safety", .obj [("risk_level", .str "MEDIUM"), ("observations", .arr []), ("concerns", .arr [])]),
      ("structural", .obj [("risk_level", .str "MEDIUM"), ("observations", .arr []), ("concerns", .arr [])]),
      ("security", .obj [("risk_level", .str "MEDIUM"), ("observations", .arr []), ("concerns", .arr [])]),
      ("water_damage", .obj [("risk_level", .str "MEDIUM"), ("observations", .arr []), ("concerns", .arr [])]),
      ("environmental", .obj [("risk_level", .str "MEDIUM"), ("observations", .arr []), ("concerns", .arr [])])]),
    ("recommendations", .arr [.str "Review detailed analysis"]),
    ("additional_information_needed", .arr []),
    ("image_analysis_summary", .str ("Analysis of " ++ toString image_count ++
      " building image" ++ (if image_count > 1 then "s" else "") ++ " completed"))]

/-- The image content block built for one image on lines 56-63:
url `data:\x7bimg['type']\x7d;base64,\x7bimg['base64']\x7d`, detail `high`. -/
def imageBlock (img : ImageData) : ContentBlock :=
  .imageUrl ("data:" ++ img.type ++ ";base64," ++ img.base64) "high"

/-- The chat-completion request assembled on lines 49-73: a system message
and a user message (user-prompt text followed by one image block per
image), `max_tokens = 3000 if image_count > 1 else 2000`,
`temperature = 0.3`, `model = self.deployment`. -/
def buildRequest (deployment : String) (images : List ImageData) : ChatRequest :=
  let image_count := images.length
  { messages := [
      { role := "system", content := .text (get_system_prompt image_count) },
      { role := "user",
        content := .parts (ContentBlock.text (get_user_prompt image_count) ::
          images.map imageBlock) }],
    max_tokens := if image_count > 1 then 3000 else 2000,
    temperature := 0.3,
    model := deployment }

/-- Extraction on line 84:
`json_match = content[content.find('\x7b'):content.rfind('\x7d')+1]`. -/
def extractJsonSpan (content : String) : String :=
  pySlice content (pyFind content lbrace) (pyRfind content rbrace + 1)

/-- Lines 82-91: the inner `try` of `analyze_building_risks`. If the
extracted span is truthy (non-empty) it is passed to `json.loads` and the
parsed value returned as-is; a `JSONDecodeError` (here `loads _ = none`)
or a falsy span yields `_create_fallback_response(content, image_count)`. -/
def parseContent (loads : String → Option Json) (content : String)
    (image_count : Nat) : Json :=
  let json_match := extractJsonSpan content
  if json_match ≠ "" then
    match loads json_match with
    | some v => v
    | none => create_fallback_response content image_count
  else
    create_fallback_response content image_count

/-- `AzureOpenAIService.analyze_building_risks` (lines 32-95). The outer
`except Exception as error: raise Exception(f"Risk analysis failed:
\x7bstr(error)\x7d")` is embedded by prefixing every escaping exception message
with `Risk analysis failed: `. -/
def analyze_building_risks (deployment : String)
    (send : ChatRequest → ApiResult) (loads : String → Option Json)
    (image_data : AnalyzeInput) : Except String Json :=
  let images := normalizeInput image_data
  let image_count := images.length
  match send (buildRequest deployment images) with
  | .exn msg => .error ("Risk analysis failed: " ++ msg)
  | .ok r =>
    if pyTruthyStr r.errorField then
      .error ("Risk analysis failed: " ++ ("Azure OpenAI API Error: " ++ r.errorField.getD ""))
    else
      match r.choices with
      | [] => .error ("Risk analysis failed: " ++ "list index out of range")
      | c :: _ =>
        match c with
        | none => .error ("Risk analysis failed: " ++ "No response content received from Azure OpenAI")
        | some content =>
          if content = "" then
            .error ("Risk analysis failed: " ++ "No response content received from Azure OpenAI")
          else
            .ok (parseContent loads content image_count)

/-- The fixed request sent by `health_check` (lines 218-226). -/
def healthRequest (deployment : String) : ChatRequest :=
  { messages := [
      { role := "system", content := .text "You are a helpful assistant." },
      { role := "user", content := .text "Hello, please respond with \x27OK\x27 to confirm connectivity." }],
    max_tokens := 10,
    temperature := 0,
    model := deployment }

/-- `AzureOpenAIService.health_check` (lines 210-231): sends the fixed
probe, returns `'OK' in (response.choices[0].message.content or '')`, and
returns `False` on any raised exception (transport failure, or the
`IndexError` of `choices[0]` on an empty choice list). -/
def health_check (deployment : String) (send : ChatRequest → ApiResult) : Bool :=
  match send (healthRequest deployment) with
  | .exn _ => false
  | .ok r =>
    match r.choices with
    | [] => false
    | c :: _ => pyIn "OK" (c.getD "")

/-- If no element of the list satisfies `p`, the search finds nothing. -/
theorem findIdxOpt_eq_none {p : Char → Bool} {l : List Char}
    (h : ∀ x ∈ l, p x = false) : findIdxOpt p l = none := by
  induction l with
  | nil => rfl
  | cons x xs ih =>
    have hx := h x (List.mem_cons_self x xs)
    simp [findIdxOpt, hx, ih fun y hy => h y (List.mem_cons_of_mem _ hy)]

/-- Searching an append whose first part has no hit shifts the index. -/
theorem findIdxOpt_append {p : Char → Bool} {a : List Char} (b : List Char)
    (h : ∀ x ∈ a, p x = false) :
    findIdxOpt p (a ++ b) = (findIdxOpt p b).map (· + a.length) := by
  induction a with
  | nil => cases hb : findIdxOpt p b <;> simp [hb]
  | cons x xs ih =>
    have hx := h x (List.mem_cons_self x xs)
    have ih' := ih fun y hy => h y (List.mem_cons_of_mem _ hy)
    cases hb : findIdxOpt p b <;>
      simp [findIdxOpt, hx, ih', hb, Nat.add_assoc]

/-- A found index is within bounds. -/
theorem findIdxOpt_lt_length {p : Char → Bool} {l : List Char} {i : Nat}
    (h : findIdxOpt p l = some i) : i < l.length := by
  induction l generalizing i with
  | nil => simp [findIdxOpt] at h
  | cons x xs ih =>
    by_cases hx : p x
    · simp [findIdxOpt, hx] at h
      simp only [List.length_cons]
      omega
    · simp [findIdxOpt, hx] at h
      obtain ⟨j, hj, rfl⟩ := h
      have := ih hj
      simp only [List.length_cons]
      omega

/-- A search that returns index `0` found a satisfying head. -/
theorem findIdxOpt_eq_some_zero {p : Char → Bool} {l : List Char}
    (h : findIdxOpt p l = some 0) : ∃ y ys, l = y :: ys ∧ p y = true := by
  cases l with
  | nil => simp [findIdxOpt] at h
  | cons x xs =>
    by_cases hx : p x
    · exact ⟨x, xs, rfl, hx⟩
    · simp [findIdxOpt, hx] at h

/-- Clamping a bound that is already inside `[0, L]` is the identity. -/
theorem pyClamp_of_nonneg {i : Int} {L : Nat} (h0 : 0 ≤ i) (hle : i ≤ (L : Int)) :
    pyClamp i L = i.toNat := by
  unfold pyClamp
  rw [if_neg (by omega), min_eq_left hle, max_eq_right h0]

/-- Clamping the bound `-1` against a positive length yields `L - 1`. -/
theorem pyClamp_neg_one {L : Nat} (hL : 1 ≤ L) : pyClamp (-1) L = L - 1 := by
  unfold pyClamp
  rw [if_pos (by omega), min_eq_left (by omega), max_eq_right (by omega)]
  omega

/-- Clamping the bound `0` yields `0`. -/
theorem pyClamp_zero (L : Nat) : pyClamp 0 L = 0 := by
  unfold pyClamp
  rw [if_neg (by omega), min_eq_left (by omega)]
  rfl

/-- A slice ending at `0` is empty. -/
theorem pySliceList_end_zero (l : List Char) (a : Int) :
    pySliceList l a 0 = [] := by
  unfold pySliceList
  rw [pyClamp_zero]
  simp

/-- The in-range slice `[a.length, a.length + b.length)` of `a ++ b ++ c`
recovers `b` exactly. -/
theorem pySliceList_extract (a b c : List Char) :
    pySliceList (a ++ b ++ c) (a.length : Int) ((a.length : Int) + (b.length : Int)) = b := by
  have hlen : (a ++ b ++ c).length = a.length + b.length + c.length := by
    rw [List.length_append, List.length_append]
  unfold pySliceList
  have h1 : pyClamp (a.length : Int) (a ++ b ++ c).length = a.length := by
    rw [pyClamp_of_nonneg (by omega) (by rw [hlen]; push_cast; omega)]
    exact Int.toNat_ofNat a.length
  have h2 : pyClamp ((a.length : Int) + (b.length : Int)) (a ++ b ++ c).length
      = a.length + b.length := by
    rw [pyClamp_of_nonneg (by omega) (by rw [hlen]; push_cast; omega)]
    omega
  rw [h1, h2]
  rw [@List.take_left' Char (a ++ b) c (a.length + b.length) (by simp)]
  exact List.drop_left a b

/-- Position of the first `\x7b` in `pre ++ s ++ post` when `pre` is
brace-free and `s` starts with `\x7b`. -/
theorem pyFind_decomp (pre s post : String) (t : List Char)
    (hpre : ∀ x ∈ pre.data, ¬ x = lbrace)
    (hs : s.data = lbrace :: t) :
    pyFind (pre ++ s ++ post) lbrace = (pre.data.length : Int) := by
  unfold pyFind
  have hdata : (pre ++ s ++ post).data = pre.data ++ (s.data ++ post.data) := by
    simp
  rw [hdata, findIdxOpt_append _ fun x hx => by simpa using hpre x hx, hs]
  simp [findIdxOpt]

/-- Position of the last `\x7d` in `pre ++ s ++ post` when `post` is
brace-free and `s` ends with `\x7d`. -/
theorem pyRfind_decomp (pre s post : String) (u : List Char)
    (hpost : ∀ x ∈ post.data, ¬ x = rbrace)
    (hs : s.data = u ++ [rbrace]) :
    pyRfind (pre ++ s ++ post) rbrace
      = (pre.data.length : Int) + (s.data.length : Int) - 1 := by
  unfold pyRfind
  have hdata : (pre ++ s ++ post).data = pre.data ++ s.data ++ post.data := by
    simp
  rw [hdata, List.reverse_append, List.reverse_append]
  rw [findIdxOpt_append _ fun x hx => by simpa using hpost x (List.mem_reverse.mp hx)]
  have hsrev : s.data.reverse = rbrace :: u.reverse := by
    rw [hs]; simp
  rw [hsrev]
  simp only [List.cons_append, findIdxOpt, beq_self_eq_true, if_pos, Option.map_some']
  simp only [List.length_append, List.length_reverse, hs, List.length_append,
    List.length_cons, List.length_nil]
  push_cast
  ring

/-- The brace-span extraction of line 84 recovers `s` exactly whenever the
surrounding prose cannot shift the outer brace positions. -/
theorem extractJsonSpan_recovers (pre s post : String)
    (hpre : ∀ x ∈ pre.data, ¬ x = lbrace)
    (hpost : ∀ x ∈ post.data, ¬ x = rbrace)
    (hhead : ∃ t, s.data = lbrace :: t)
    (hlast : ∃ u, s.data = u ++ [rbrace]) :
    extractJsonSpan (pre ++ s ++ post) = s := by
  obtain ⟨t, ht⟩ := hhead
  obtain ⟨u, hu⟩ := hlast
  unfold extractJsonSpan pySlice
  rw [pyFind_decomp pre s post t hpre ht, pyRfind_decomp pre s post u hpost hu]
  have hb : (pre.data.length : Int) + (s.data.length : Int) - 1 + 1
      = (pre.data.length : Int) + (s.data.length : Int) := by ring
  have hdata : (pre ++ s ++ post).data = pre.data ++ s.data ++ post.data := by
    simp
  rw [hb, hdata, pySliceList_extract]

/-- When the response text has no `\x7b` at all, the extracted span is
either empty or the single character `\x7d` (the latter exactly when the
text ends in `\x7d`); real `json.loads` fails on both. -/
theorem extractJsonSpan_no_lbrace (content : String)
    (h : ∀ x ∈ content.data, ¬ x = lbrace) :
    extractJsonSpan content = "" ∨ extractJsonSpan content = String.mk [rbrace] := by
  have hfind : pyFind content lbrace = -1 := by
    unfold pyFind
    rw [findIdxOpt_eq_none fun x hx => by simpa using h x hx]
  unfold extractJsonSpan pySlice
  rw [hfind]
  cases hr : findIdxOpt (fun x => x == rbrace) content.data.reverse with
  | none =>
    left
    have hrf : pyRfind content rbrace = -1 := by
      unfold pyRfind; rw [hr]
    rw [hrf]
    have h0 : (-1 : Int) + 1 = 0 := by norm_num
    rw [h0, pySliceList_end_zero]
  | some i =>
    have hi : i < content.data.length := by
      have := findIdxOpt_lt_length hr
      rwa [List.length_reverse] at this
    have hrf : pyRfind content rbrace = (content.data.length : Int) - 1 - i := by
      unfold pyRfind; rw [hr]
    rw [hrf]
    have hb : (content.data.length : Int) - 1 - i + 1
        = (content.data.length : Int) - i := by ring
    rw [hb]
    by_cases hi0 : i = 0
    · right
      subst hi0
      simp only [Nat.cast_zero, sub_zero]
      obtain ⟨y, ys, hys, hy⟩ := findIdxOpt_eq_some_zero hr
      have hyr : y = rbrace := by simpa using hy
      subst hyr
      have hcd : content.data = ys.reverse ++ [rbrace] := by
        have := congrArg List.reverse hys
        simpa using this
      have hL : 1 ≤ content.data.length := by omega
      unfold pySliceList
      have hc1 : pyClamp ((content.data.length : Int)) content.data.length
          = content.data.length := by
        rw [pyClamp_of_nonneg (by omega) (by omega)]
        omega
      rw [hc1, pyClamp_neg_one hL, List.take_length, hcd]
      have hlen2 : (ys.reverse ++ [rbrace]).length - 1 = ys.reverse.length := by
        simp
      rw [hlen2, List.drop_left]
    · left
      have hi1 : 1 ≤ i := Nat.one_le_iff_ne_zero.mpr hi0
      unfold pySliceList
      have hc1 : pyClamp ((content.data.length : Int) - i) content.data.length
          = content.data.length - i := by
        rw [pyClamp_of_nonneg (by omega) (by omega)]
        omega
      have hL : 1 ≤ content.data.length := by omega
      rw [hc1, pyClamp_neg_one hL]
      have hsl : (content.data.take (content.data.length - i)).length
          ≤ content.data.length - 1 := by
        rw [List.length_take]
        omega
      rw [List.drop_eq_nil_of_le hsl]

/-- A string with non-empty character data is not the empty string. -/
theorem str_ne_empty {s : String} (h : s.data ≠ []) : s ≠ "" := by
  intro he
  exact h (by rw [he])

/-- The character data of a non-empty string is non-empty. -/
theorem data_ne_of_ne_empty {s : String} (h : s ≠ "") : s.data ≠ [] :=
  fun hd => h (congrArg String.mk hd)

/-- An append whose left part has characters is non-empty. -/
theorem append_left_ne_empty (a b : String) (ha : a.data ≠ []) : a ++ b ≠ "" := by
  intro he
  have hd := congrArg String.data he
  rw [String.data_append] at hd
  exact ha (List.append_eq_nil.mp hd).1

/-- An append whose right part has characters is non-empty. -/
theorem append_right_ne_empty (a b : String) (hb : b.data ≠ []) : a ++ b ≠ "" := by
  intro he
  have hd := congrArg String.data he
  rw [String.data_append] at hd
  exact hb (List.append_eq_nil.mp hd).2

/-- A successful transport call whose first choice carries non-empty text
reduces `analyze_building_risks` to the parse step on that text. -/
theorem analyze_ok_content (deployment : String) (send : ChatRequest → ApiResult)
    (loads : String → Option Json) (input : AnalyzeInput) (content : String)
    (hsend : send (buildRequest deployment (normalizeInput input)) =
      .ok ⟨none, [some content]⟩)
    (hne : content ≠ "") :
    analyze_building_risks deployment send loads input =
      .ok (parseContent loads content (normalizeInput input).length) := by
  simp only [analyze_building_risks]
  rw [hsend]
  simp [pyTruthyStr, hne]

/-- Every error value `analyze_building_risks` can return is the wrapping
message prefix applied to some cause. -/
theorem analyze_error_shape (deployment : String) (send : ChatRequest → ApiResult)
    (loads : String → Option Json) (input : AnalyzeInput) (e : String)
    (h : analyze_building_risks deployment send loads input = .error e) :
    ∃ cause, e = "Risk analysis failed: " ++ cause := by
  simp only [analyze_building_risks] at h
  split at h
  · exact ⟨_, (Except.error.inj h).symm⟩
  · split at h
    · exact ⟨_, (Except.error.inj h).symm⟩
    · split at h
      · exact ⟨_, (Except.error.inj h).symm⟩
      · split at h
        · exact ⟨_, (Except.error.inj h).symm⟩
        · split at h
          · exact ⟨_, (Except.error.inj h).symm⟩
          · exact absurd h (by simp)

/-- The wrapped analysis-failure message is never the configuration
message raised by `__init__`. -/
theorem wrapped_ne_config (cause : String) :
    "Risk analysis failed: " ++ cause
      ≠ "Missing Azure OpenAI configuration. Please check your .env file." := by
  intro heq
  have hdata : "Risk analysis failed: ".data ++ cause.data
      = "Missing Azure OpenAI configuration. Please check your .env file.".data := by
    rw [← String.data_append, heq]
  have h22 := congrArg (List.take 22) hdata
  rw [@List.take_left' Char "Risk analysis failed: ".data cause.data 22 (by decide)] at h22
  exact absurd h22 (by decide)

/-- C1: when the response text is a single balanced JSON object `s`
(beginning with `\x7b` and ending with `\x7d`) optionally surrounded by
prose that cannot shift the outer brace positions, the extraction from
the first `\x7b` to the last `\x7d` recovers exactly `s`, the span is
JSON-parsed, and `analyze_building_risks` returns whatever mapping the
parser produced, unchanged - for every `Json` value `v`, with no
mutation and no schema validation against the RiskAssessment contract. -/
theorem analyze_passthrough_exact (deployment : String)
    (send : ChatRequest → ApiResult) (loads : String → Option Json)
    (input : AnalyzeInput) (pre s post : String) (v : Json)
    (hsend : send (buildRequest deployment (normalizeInput input)) =
      .ok ⟨none, [some (pre ++ s ++ post)]⟩)
    (hpre : ∀ x ∈ pre.data, ¬ x = lbrace)
    (hpost : ∀ x ∈ post.data, ¬ x = rbrace)
    (hhead : ∃ t, s.data = lbrace :: t)
    (hlast : ∃ u, s.data = u ++ [rbrace])
    (hparse : loads s = some v) :
    extractJsonSpan (pre ++ s ++ post) = s ∧
    analyze_building_risks deployment send loads input = .ok v := by
  have hspan := extractJsonSpan_recovers pre s post hpre hpost hhead hlast
  obtain ⟨t, ht⟩ := hhead
  have hcne : (pre ++ s ++ post) ≠ "" := by
    apply str_ne_empty
    simp [ht]
  have hsne : s ≠ "" := str_ne_empty (by rw [ht]; simp)
  refine ⟨hspan, ?_⟩
  rw [analyze_ok_content deployment send loads input _ hsend hcne]
  simp only [parseContent]
  rw [hspan, if_pos hsne, hparse]

/-- Witness for C1: the concrete response text `pre \x7b\x7d post` with a
parser that maps `\x7b\x7d` to the empty JSON object. -/
theorem analyze_passthrough_exact_witness :
    extractJsonSpan ("pre " ++ "\x7b\x7d" ++ " post") = "\x7b\x7d" ∧
    analyze_building_risks "dep"
      (fun _ => .ok ⟨none, [some ("pre " ++ "\x7b\x7d" ++ " post")]⟩)
      (fun q => if q = "\x7b\x7d" then some (Json.obj []) else none)
      (.list []) = .ok (Json.obj []) :=
  analyze_passthrough_exact "dep"
    (fun _ => .ok ⟨none, [some ("pre " ++ "\x7b\x7d" ++ " post")]⟩)
    (fun q => if q = "\x7b\x7d" then some (Json.obj []) else none)
    (.list []) "pre " "\x7b\x7d" " post" (Json.obj []) rfl
    (by decide) (by decide) ⟨[rbrace], by decide⟩ ⟨[lbrace], by decide⟩ rfl

/-- C2: parse failure never escapes `analyze_building_risks`. With no
`\x7b` in the (non-empty) response text the only possible spans are empty
or the single character `\x7d` (on which `json.loads` fails), and the
fallback built from the verbatim text and the image count is returned;
likewise whenever `json.loads` fails on the extracted span. The fallback
carries `raw_response` equal to the original text verbatim and
`images_analyzed` equal to the input image count. -/
theorem analyze_parse_failure_absorbed (deployment : String)
    (send : ChatRequest → ApiResult) (loads : String → Option Json)
    (input : AnalyzeInput) (content : String)
    (hsend : send (buildRequest deployment (normalizeInput input)) =
      .ok ⟨none, [some content]⟩)
    (hne : content ≠ "") :
    ((∀ x ∈ content.data, ¬ x = lbrace) → loads (String.mk [rbrace]) = none →
      analyze_building_risks deployment send loads input =
        .ok (create_fallback_response content (normalizeInput input).length))
    ∧ (loads (extractJsonSpan content) = none →
      analyze_building_risks deployment send loads input =
        .ok (create_fallback_response content (normalizeInput input).length))
    ∧ (create_fallback_response content (normalizeInput input).length).getKey
        "raw_response" = some (.str content)
    ∧ (create_fallback_response content (normalizeInput input).length).getKey
        "images_analyzed" = some (.num ((normalizeInput input).length : Int)) := by
  refine ⟨?_, ?_, rfl, rfl⟩
  · intro hnob hload
    rw [analyze_ok_content deployment send loads input content hsend hne]
    rcases extractJsonSpan_no_lbrace content hnob with hsp | hsp
    · simp only [parseContent]
      rw [hsp]
      simp
    · simp only [parseContent]
      rw [hsp, if_pos (by decide), hload]
  · intro hload
    rw [analyze_ok_content deployment send loads input content hsend hne]
    simp only [parseContent]
    by_cases hsp : extractJsonSpan content = ""
    · rw [hsp]
      simp
    · rw [if_pos hsp, hload]

/-- Witness for C2: a brace-free response text for a one-image request,
with a parser that always fails. -/
theorem analyze_parse_failure_absorbed_witness :
    analyze_building_risks "dep"
      (fun _ => .ok ⟨none, [some "I cannot parse this."]⟩)
      (fun _ => none) (.list [⟨"b64", "image/png"⟩]) =
      .ok (create_fallback_response "I cannot parse this." 1) :=
  (analyze_parse_failure_absorbed "dep"
    (fun _ => .ok ⟨none, [some "I cannot parse this."]⟩)
    (fun _ => none) (.list [⟨"b64", "image/png"⟩]) "I cannot parse this."
    rfl (by decide)).1 (by decide) rfl

/-- C3: the fallback for an `n`-image request with original text `t` has
exactly the nine contracted keys, `overall_risk_level` MEDIUM,
`risk_score` 5, `images_analyzed` `n`, exactly one generic key finding,
exactly the five categories each MEDIUM with empty observations and
concerns, exactly one generic recommendation, an empty
additional-information list, the generated summary sentence, and
`raw_response` equal to `t`. -/
theorem fallback_shape (t : String) (n : Nat) :
    (create_fallback_response t n).keys =
      ["overall_risk_level", "risk_score", "images_analyzed", "key_findings",
       "raw_response", "detailed_assessment", "recommendations",
       "additional_information_needed", "image_analysis_summary"]
    ∧ (create_fallback_response t n).getKey "overall_risk_level" = some (.str "MEDIUM")
    ∧ (create_fallback_response t n).getKey "risk_score" = some (.num 5)
    ∧ (create_fallback_response t n).getKey "images_analyzed" = some (.num (n : Int))
    ∧ (create_fallback_response t n).getKey "key_findings" =
        some (.arr [.str "Analysis completed - see detailed response"])
    ∧ (create_fallback_response t n).getKey "detailed_assessment" =
        some (.obj [
          ("fire_safety", .obj [("risk_level", .str "MEDIUM"), ("observations", .arr []), ("concerns", .arr [])]),
          ("structural", .obj [("risk_level", .str "MEDIUM"), ("observations", .arr []), ("concerns", .arr [])]),
          ("security", .obj [("risk_level", .str "MEDIUM"), ("observations", .arr []), ("concerns", .arr [])]),
          ("water_damage", .obj [("risk_level", .str "MEDIUM"), ("observations", .arr []), ("concerns", .arr [])]),
          ("environmental", .obj [("risk_level", .str "MEDIUM"), ("observations", .arr []), ("concerns", .arr [])])])
    ∧ (create_fallback_response t n).getKey "recommendations" =
        some (.arr [.str "Review detailed analysis"])
    ∧ (create_fallback_response t n).getKey "additional_information_needed" =
        some (.arr [])
    ∧ (create_fallback_response t n).getKey "image_analysis_summary" =
        some (.str ("Analysis of " ++ toString n ++ " building image" ++
          (if n > 1 then "s" else "") ++ " completed"))
    ∧ (create_fallback_response t n).getKey "raw_response" = some (.str t) :=
  ⟨rfl, rfl, rfl, rfl, rfl, rfl, rfl, rfl, rfl, rfl⟩

/-- C4: every failure before a parsed result exists - transport
exception, provider-reported error field, empty choice list, `None`
content, or empty content - makes `analyze_building_risks` return the
single wrapping error (`Risk analysis failed: ` prefixed to the original
cause), and every error it can ever return has that wrapped form, so no
other exception type escapes. -/
theorem analyze_failure_wrapped (deployment : String)
    (send : ChatRequest → ApiResult) (loads : String → Option Json)
    (input : AnalyzeInput) :
    (∀ m, send (buildRequest deployment (normalizeInput input)) = .exn m →
      analyze_building_risks deployment send loads input =
        .error ("Risk analysis failed: " ++ m))
    ∧ (∀ err choices, err ≠ "" →
      send (buildRequest deployment (normalizeInput input)) = .ok ⟨some err, choices⟩ →
      analyze_building_risks deployment send loads input =
        .error ("Risk analysis failed: " ++ ("Azure OpenAI API Error: " ++ err)))
    ∧ (∀ errF, pyTruthyStr errF = false →
      send (buildRequest deployment (normalizeInput input)) = .ok ⟨errF, []⟩ →
      analyze_building_risks deployment send loads input =
        .error ("Risk analysis failed: " ++ "list index out of range"))
    ∧ (∀ errF rest, pyTruthyStr errF = false →
      send (buildRequest deployment (normalizeInput input)) = .ok ⟨errF, none :: rest⟩ →
      analyze_building_risks deployment send loads input =
        .error ("Risk analysis failed: " ++ "No response content received from Azure OpenAI"))
    ∧ (∀ errF rest, pyTruthyStr errF = false →
      send (buildRequest deployment (normalizeInput input)) = .ok ⟨errF, some "" :: rest⟩ →
      analyze_building_risks deployment send loads input =
        .error ("Risk analysis failed: " ++ "No response content received from Azure OpenAI"))
    ∧ (∀ e, analyze_building_risks deployment send loads input = .error e →
      ∃ cause, e = "Risk analysis failed: " ++ cause) := by
  refine ⟨?_, ?_, ?_, ?_, ?_, analyze_error_shape deployment send loads input⟩
  · intro m hsend
    simp only [analyze_building_risks]
    rw [hsend]
  · intro err choices herr hsend
    simp only [analyze_building_risks]
    rw [hsend]
    simp [pyTruthyStr, herr]
  · intro errF hF hsend
    simp only [analyze_building_risks]
    rw [hsend]
    simp [hF]
  · intro errF rest hF hsend
    simp only [analyze_building_risks]
    rw [hsend]
    simp [hF]
  · intro errF rest hF hsend
    simp only [analyze_building_risks]
    rw [hsend]
    simp [hF]

/-- Witness for C4: a raising transport yields exactly the wrapped error. -/
theorem analyze_failure_wrapped_witness :
    analyze_building_risks "dep" (fun _ => .exn "Connection reset")
      (fun _ => none) (.list []) =
      .error ("Risk analysis failed: " ++ "Connection reset") :=
  (analyze_failure_wrapped "dep" (fun _ => .exn "Connection reset")
    (fun _ => none) (.list [])).1 "Connection reset" rfl

/-- C5: `health_check` returns `true` exactly when the literal substring
`OK` occurs in the first choice's text (with `None` content read as the
empty string), and returns `false` - raising nothing, as it is a total
function into `Bool` - when the transport raises or the choice list is
empty. -/
theorem health_check_contract (deployment : String) (send : ChatRequest → ApiResult) :
    (∀ m, send (healthRequest deployment) = .exn m →
      health_check deployment send = false)
    ∧ (∀ errF, send (healthRequest deployment) = .ok ⟨errF, []⟩ →
      health_check deployment send = false)
    ∧ (∀ errF c rest, send (healthRequest deployment) = .ok ⟨errF, c :: rest⟩ →
      (health_check deployment send = true ↔ "OK".data <:+: (c.getD "").data)) := by
  refine ⟨?_, ?_, ?_⟩
  · intro m hsend
    simp only [health_check]
    rw [hsend]
  · intro errF hsend
    simp only [health_check]
    rw [hsend]
  · intro errF c rest hsend
    simp only [health_check]
    rw [hsend]
    simp [pyIn]

/-- Witness for C5: `OK` inside prose is detected; a raising transport
reports `false`. -/
theorem health_check_contract_witness :
    health_check "dep" (fun _ => .ok ⟨none, [some "All systems OK today"]⟩) = true ∧
    health_check "dep" (fun _ => .exn "timeout") = false :=
  ⟨((health_check_contract "dep"
      (fun _ => .ok ⟨none, [some "All systems OK today"]⟩)).2.2 none
      (some "All systems OK today") [] rfl).mpr (by decide),
   (health_check_contract "dep" (fun _ => .exn "timeout")).1 "timeout" rfl⟩

/-- C6: construction fails with the configuration error exactly when at
least one of the three required connection values is absent (unset or
empty, i.e. Python-falsy, mirroring `not all([...])`), and this error is
never produced by `analyze_building_risks`, whose errors all have the
per-call wrapped form - so the configuration check happens at
construction only. -/
theorem init_config_gate (cfg : Config) :
    ((∃ msg, initService cfg = .error msg) ↔
      ¬ (pyTruthyStr cfg.endpoint = true ∧ pyTruthyStr cfg.api_key = true ∧
         pyTruthyStr cfg.deployment = true))
    ∧ (∀ deployment send loads input e,
      analyze_building_risks deployment send loads input = .error e →
      e ≠ "Missing Azure OpenAI configuration. Please check your .env file.") := by
  constructor
  · unfold initService
    cases hB : (pyTruthyStr cfg.endpoint && pyTruthyStr cfg.api_key &&
        pyTruthyStr cfg.deployment) with
    | true =>
      simp only [Bool.and_eq_true] at hB
      simp [hB.1.1, hB.1.2, hB.2]
    | false =>
      constructor
      · intro _ hc
        rw [hc.1, hc.2.1, hc.2.2] at hB
        simp at hB
      · intro _
        refine ⟨"Missing Azure OpenAI configuration. Please check your .env file.", ?_⟩
        simp
  · intro deployment send loads input e he
    obtain ⟨cause, hc⟩ := analyze_error_shape deployment send loads input e he
    rw [hc]
    exact wrapped_ne_config cause

/-- Witness for C6: a config with the deployment name missing is rejected
at construction. -/
theorem init_config_gate_witness :
    ∃ msg, initService ⟨some "https://endpoint", some "key", none⟩ = .error msg :=
  (init_config_gate ⟨some "https://endpoint", some "key", none⟩).1.mpr (by decide)

/-- C7: every assembled model invocation uses `max_tokens` 2000 for one
image and 3000 for more than one, temperature `0.3`, and the configured
deployment identifier as the model. -/
theorem request_parameters (deployment : String) (images : List ImageData) :
    (images.length = 1 → (buildRequest deployment images).max_tokens = 2000)
    ∧ (1 < images.length → (buildRequest deployment images).max_tokens = 3000)
    ∧ (buildRequest deployment images).temperature = 3 / 10
    ∧ (buildRequest deployment images).model = deployment := by
  refine ⟨fun h => ?_, fun h => ?_, ?_, rfl⟩
  · simp [buildRequest, h]
  · simp [buildRequest, h]
  · show (0.3 : Rat) = 3 / 10
    norm_num

/-- Witness for C7: a two-image request gets the 3000-token budget and a
one-image request the 2000-token budget. -/
theorem request_parameters_witness :
    (buildRequest "dep" [⟨"a", "image/png"⟩, ⟨"b", "image/png"⟩]).max_tokens = 3000 ∧
    (buildRequest "dep" [⟨"a", "image/png"⟩]).max_tokens = 2000 :=
  ⟨(request_parameters "dep" [⟨"a", "image/png"⟩, ⟨"b", "image/png"⟩]).2.1 (by decide),
   (request_parameters "dep" [⟨"a", "image/png"⟩]).1 rfl⟩

/-- C8: the singular user prompt differs from the plural user prompt for
every count above one, and the plural user prompt contains the decimal
string of the count. -/
theorem user_prompt_count (n : Nat) (h : 1 < n) :
    get_user_prompt 1 ≠ get_user_prompt n ∧
    (toString n).data <:+: (get_user_prompt n).data := by
  have hn : get_user_prompt n = "Please analyze these " ++ toString n ++
      " building images for comprehensive insurance underwriting risk assessment. These images show different angles and aspects of the same building. Provide a thorough evaluation considering all visible risk factors across all images." := by
    unfold get_user_prompt
    rw [if_pos h]
  have h1 : get_user_prompt 1 =
      "Please analyze this building image for insurance underwriting risk assessment. Provide a comprehensive evaluation of all visible risk factors." := rfl
  constructor
  · intro heq
    rw [h1, hn] at heq
    have hdata := congrArg String.data heq
    rw [String.data_append, String.data_append] at hdata
    have h18 := congrArg (List.take 18) hdata
    rw [List.take_append_of_le_length (by
      rw [List.length_append]
      have h21 : ("Please analyze these ".data).length = 21 := by decide
      omega)] at h18
    rw [List.take_append_of_le_length (by decide)] at h18
    exact absurd h18 (by decide)
  · rw [hn]
    refine ⟨"Please analyze these ".data,
      " building images for comprehensive insurance underwriting risk assessment. These images show different angles and aspects of the same building. Provide a thorough evaluation considering all visible risk factors across all images.".data, ?_⟩
    simp [String.data_append]

/-- Witness for C8: the prompt for three images differs from the singular
prompt and contains the digit `3`. -/
theorem user_prompt_count_witness :
    get_user_prompt 1 ≠ get_user_prompt 3 ∧
    (toString 3).data <:+: (get_user_prompt 3).data :=
  user_prompt_count 3 (by decide)

/-- C9: prompt construction, message assembly and fallback construction
are total Lean functions applied at every image count - 0 and counts
above 10 included, since `images` ranges over all lists - and always
deliver the well-formed call surface: exactly two messages (system
prompt, then the user text block followed by one image block per input
image), non-empty prompts, and a fallback carrying the image count. -/
theorem best_effort_totality (deployment : String) (images : List ImageData) (t : String) :
    (buildRequest deployment images).messages =
      [⟨"system", .text (get_system_prompt images.length)⟩,
       ⟨"user", .parts (ContentBlock.text (get_user_prompt images.length) ::
         images.map imageBlock)⟩]
    ∧ (buildRequest deployment images).messages.length = 2
    ∧ (images.map imageBlock).length = images.length
    ∧ get_system_prompt images.length ≠ ""
    ∧ get_user_prompt images.length ≠ ""
    ∧ (create_fallback_response t images.length).getKey "images_analyzed"
        = some (.num (images.length : Int))
    ∧ (create_fallback_response t images.length).keys.length = 9 := by
  refine ⟨rfl, rfl, by simp, ?_, ?_, rfl, rfl⟩
  · unfold get_system_prompt
    exact append_left_ne_empty _ _
      (data_ne_of_ne_empty (append_right_ne_empty _ _ (by decide)))
  · unfold get_user_prompt
    by_cases h : images.length > 1
    · rw [if_pos h]
      exact append_right_ne_empty _ _ (by decide)
    · rw [if_neg h]
      decide

/-- C10: a single image record passed instead of a list is normalized to
the one-element list before any processing, so the call coincides with
the one-image request on every transport and parser: same result, image
count 1, the singular user prompt, and the 2000-token budget. -/
theorem single_input_normalized (deployment : String) (send : ChatRequest → ApiResult)
    (loads : String → Option Json) (img : ImageData) :
    normalizeInput (.single img) = [img]
    ∧ analyze_building_risks deployment send loads (.single img)
        = analyze_building_risks deployment send loads (.list [img])
    ∧ (buildRequest deployment (normalizeInput (.single img))).max_tokens = 2000
    ∧ get_user_prompt (normalizeInput (.single img)).length
        = "Please analyze this building image for insurance underwriting risk assessment. Provide a comprehensive evaluation of all visible risk factors." :=
  ⟨rfl, rfl, rfl, rfl⟩

example : extractJsonSpan "ab \x7b\x22x\x22: 1\x7d cd" = "\x7b\x22x\x22: 1\x7d" := by decide
example : extractJsonSpan "no braces at all" = "" := by decide
example : extractJsonSpan "weird\x7d" = "\x7d" := by decide
example : pyIn "OK" "well OK then" = true := by decide
